import Mathlib

/-!
Verification of the polite web-crawling subsystem of the aifeelnews
repository: the robots.txt policy cache (`app/utils/robots.py`, together
with the CPython `urllib.robotparser.RobotFileParser` it delegates to),
the per-domain rate gate, the content extractor, and the crawl-job
orchestrator (`app/jobs/crawl_worker.py`).

External effects (HTTP requests, the database session, the sentiment
provider, hashing, wall-clock time) are supplied as explicit inputs;
everything the Python code computes from those inputs is translated
directly.  Python strings are modelled as Lean `String`s whose list of
characters is manipulated by structurally recursive functions mirroring
the Python string methods used by the source (`split`, `strip`, `join`,
`len`, slicing), so that all definitions evaluate inside the kernel.
Times and scores are rationals, measured in seconds.
-/

namespace Aifeelnews

set_option maxRecDepth 4000

/-! ### Python string primitives -/

/-- Python `s.split(c)` for a one-character separator `c`, on the list of
characters: splitting the empty string yields one empty field, and each
occurrence of `c` starts a new field. -/
def splitChar (c : Char) : List Char → List (List Char)
  | [] => [[]]
  | a :: rest =>
    match splitChar c rest with
    | [] => [[]]
    | l :: ls => if a = c then [] :: l :: ls else (a :: l) :: ls

/-- Python `s.strip()`: drop whitespace from both ends. -/
def stripChars (l : List Char) : List Char :=
  ((l.dropWhile Char.isWhitespace).reverse.dropWhile Char.isWhitespace).reverse

/-- Python `s.strip()` on strings. -/
def pyStrip (s : String) : String := String.mk (stripChars s.data)

/-- Python `len(s)` (code points). -/
def pyLen (s : String) : Nat := s.data.length

/-- Python `s[:n]` (slice of the first `n` code points). -/
def pyTake (s : String) (n : Nat) : String := String.mk (s.data.take n)

/-- Python `s.lower()`. -/
def pyLower (s : String) : String := String.mk (s.data.map Char.toLower)

/-- Python `a in b` (substring containment). -/
def pyIn (a b : String) : Bool := decide (a.data <:+: b.data)

/-- Python `b.startswith(a)`. -/
def pyStartsWith (b a : String) : Bool := a.data.isPrefixOf b.data

/-! ### `urllib.robotparser.RobotFileParser`

`app/utils/robots.py` answers allow/deny and crawl-delay questions through
the CPython standard-library class `urllib.robotparser.RobotFileParser`.
The fields and methods below are translated from that class: `entries`
and `default_entry` hold the parsed `User-agent` groups, `disallow_all`
and `allow_all` are the flags `read()` sets on 401/403 and other 4xx
responses, and `last_checked` records whether `mtime()` is nonzero, i.e.
whether the file has ever been read or parsed.  A freshly constructed
parser has all of these false. -/

/-- One `Allow:`/`Disallow:` line of a parsed robots.txt. -/
structure RuleLine where
  path : String
  allowance : Bool
deriving DecidableEq

/-- `RuleLine.applies_to`: the rule path `"*"` matches everything,
otherwise prefix match on the requested path. -/
def RuleLine.applies_to (r : RuleLine) (filename : String) : Bool :=
  r.path == "*" || pyStartsWith filename r.path

/-- One `User-agent:` group of a parsed robots.txt. -/
structure Entry where
  useragents : List String
  rulelines : List RuleLine
  delay : Option Nat
deriving DecidableEq

/-- `Entry.applies_to`: the agent token is the part of the User-Agent
before the first `/`, lower-cased; a group applies when it lists `*` or
an agent name contained in that token. -/
def Entry.applies_to (e : Entry) (useragent : String) : Bool :=
  let token := pyLower (String.mk ((splitChar '/' useragent.data).headD []))
  e.useragents.any (fun agent => agent == "*" || pyIn (pyLower agent) token)

/-- `Entry.allowance`: the first rule line that applies decides; with no
applicable line the path is allowed. -/
def Entry.allowance (e : Entry) (filename : String) : Bool :=
  match e.rulelines.find? (fun line => line.applies_to filename) with
  | some line => line.allowance
  | none => true

/-- The state of a `urllib.robotparser.RobotFileParser`. -/
structure RobotFileParser where
  entries : List Entry
  default_entry : Option Entry
  disallow_all : Bool
  allow_all : Bool
  last_checked : Bool
deriving DecidableEq

/-- `RobotFileParser()` — a freshly constructed parser (`__init__`):
no entries, both flags cleared, and `last_checked = 0`.  `set_url` only
records the URL and is state-irrelevant here. -/
def RobotFileParser.init : RobotFileParser :=
  { entries := [], default_entry := none, disallow_all := false,
    allow_all := false, last_checked := false }

/-- `RobotFileParser.can_fetch(useragent, url)`.  The URL-decoding and
re-quoting performed by CPython is abstracted to its result, the
normalized path `path` of the URL; every claim below quantifies over all
paths, so nothing is lost. -/
def RobotFileParser.can_fetch (p : RobotFileParser) (useragent path : String) : Bool :=
  if p.disallow_all then false
  else if p.allow_all then true
  else if !p.last_checked then false
  else
    let url := if path == "" then "/" else path
    match p.entries.find? (fun e => e.applies_to useragent) with
    | some entry => entry.allowance url
    | none =>
      match p.default_entry with
      | some entry => entry.allowance url
      | none => true

/-- `RobotFileParser.crawl_delay(useragent)`. -/
def RobotFileParser.crawl_delay (p : RobotFileParser) (useragent : String) : Option Nat :=
  if !p.last_checked then none
  else
    match p.entries.find? (fun e => e.applies_to useragent) with
    | some entry => entry.delay
    | none =>
      match p.default_entry with
      | some entry => entry.delay
      | none => none

/-! ### `app/utils/robots.py` -/

/-- The crawler's identifying User-Agent string (module constant). -/
def USER_AGENT : String :=
  "aifeelnews-bot/1.0 (+https://github.com/cardox6/aifeelnews; matias.cardone@code.berlin)"

/-- Robots cache TTL: `timedelta(hours=24)`, in seconds. -/
def ROBOTS_CACHE_TTL : ℚ := 24 * 3600

/-- The parse of a successfully fetched robots.txt body, as the groups
`RobotFileParser.parse` would extract from its lines.  Parsing the body
calls `modified()`, so the resulting parser has `last_checked` set. -/
structure RobotsTxtBody where
  entries : List Entry
  default_entry : Option Entry
deriving DecidableEq

/-- The parser produced by feeding a fetched body through
`RobotFileParser.read()` on the temporary file (`parse` sets
`last_checked` via `modified()`). -/
def parseRobotsTxt (b : RobotsTxtBody) : RobotFileParser :=
  { entries := b.entries, default_entry := b.default_entry,
    disallow_all := false, allow_all := false, last_checked := true }

/-- Outcome of one `requests.get` for a robots.txt URL: either a response
with a status code and (parsed) body, or a raised
`requests.RequestException` (timeout, DNS failure, connection error). -/
inductive HttpResult where
  | resp (status_code : Nat) (body : RobotsTxtBody)
  | exc
deriving DecidableEq

/-- The HTTP-fallback tail of `fetch_robots_txt` (lines 129-162): after a
`RequestException` on HTTPS the same host is tried over HTTP once, and
the body is parsed only when that response has status exactly 200;
any other status, or a second exception, gives up with `None`. -/
def httpFallbackFetch (fallback : HttpResult) : Option RobotFileParser :=
  match fallback with
  | .resp 200 body => some (parseRobotsTxt body)
  | .resp _ _ => none
  | .exc => none

/-- `fetch_robots_txt(domain)`, with the two possible network
interactions (HTTPS attempt, HTTP fallback attempt) supplied as inputs.
On HTTP 404 the source returns a freshly constructed `RobotFileParser`
on which neither `read()` nor `parse()` was ever called.
`response.raise_for_status()` raises `requests.HTTPError` — a
`RequestException` — for status codes in `[400, 600)`, which the
surrounding `except requests.RequestException` turns into the HTTP
fallback attempt. -/
def fetch_robots_txt (https fallback : HttpResult) : Option RobotFileParser :=
  match https with
  | .resp status body =>
    if status = 404 then some RobotFileParser.init
    else if 400 ≤ status ∧ status < 600 then httpFallbackFetch fallback
    else some (parseRobotsTxt body)
  | .exc => httpFallbackFetch fallback

/-- One entry of the module-level `_robots_cache` for a domain: the
cached parser and when it was cached. -/
structure RobotsCacheEntry where
  parser : RobotFileParser
  cached_at : ℚ
deriving DecidableEq

/-- The cache-miss tail of `get_robots_parser`: fetch fresh, cache the
parser if one was produced (a `RobotFileParser` instance is always
truthy, so `if fresh_parser:` is an is-not-None test). -/
def getRobotsParserFresh (now : ℚ) (https fallback : HttpResult) :
    Option RobotFileParser × Option RobotsCacheEntry :=
  match fetch_robots_txt https fallback with
  | some p => (some p, some ⟨p, now⟩)
  | none => (none, none)

/-- `get_robots_parser(domain)`: serve a cache entry younger than the
TTL; an older entry is deleted and the fetch is redone.  Returns the
parser (if any) and the domain's cache entry afterwards. -/
def getRobotsParser (cache : Option RobotsCacheEntry) (now : ℚ)
    (https fallback : HttpResult) :
    Option RobotFileParser × Option RobotsCacheEntry :=
  match cache with
  | some entry =>
    if now - entry.cached_at < ROBOTS_CACHE_TTL then (some entry.parser, some entry)
    else getRobotsParserFresh now https fallback
  | none => getRobotsParserFresh now https fallback

/-- `is_url_allowed(url, user_agent)`: permissive when no parser could be
obtained, otherwise `parser.can_fetch`.  Returns the `(allowed, reason)`
pair and the domain's cache entry afterwards.  (`\x27` is the single
quote the source puts around the agent name.) -/
def is_url_allowed (cache : Option RobotsCacheEntry) (now : ℚ)
    (https fallback : HttpResult) (user_agent path : String) :
    (Bool × String) × Option RobotsCacheEntry :=
  let res := getRobotsParser cache now https fallback
  match res.1 with
  | none => ((true, "No robots.txt or fetch failed (permissive default)"), res.2)
  | some parser =>
    if parser.can_fetch user_agent path then
      ((true, "Allowed by robots.txt"), res.2)
    else
      ((false, "Disallowed by robots.txt for user-agent \x27" ++ user_agent ++ "\x27"), res.2)

/-- `get_crawl_delay(domain, user_agent)` with the parser lookup already
resolved: `float(delay) if delay else None` maps a zero (falsy) delay to
`None` as well. -/
def get_crawl_delay (parserOpt : Option RobotFileParser) (user_agent : String) :
    Option ℚ :=
  match parserOpt with
  | none => none
  | some parser =>
    match parser.crawl_delay user_agent with
    | none => none
    | some d => if d ≠ 0 then some (d : ℚ) else none

/-- `respect_crawl_delay(domain, last_crawl_time)` with the parser lookup
resolved and the wall clock `now` explicit: first contact passes, else
the crawl-delay (default 1.0 s) must have elapsed. -/
def respect_crawl_delay (parserOpt : Option RobotFileParser) (now : ℚ)
    (last_crawl_time : Option ℚ) : Bool :=
  match last_crawl_time with
  | none => true
  | some t =>
    let delay : ℚ :=
      match get_crawl_delay parserOpt USER_AGENT with
      | none => 1
      | some d => d
    decide (now - t ≥ delay)

/-- The effective delay in the words of the specification: the robots.txt
crawl-delay for the domain when one is reported, else the 1.0-second
default. -/
def effective_delay (parserOpt : Option RobotFileParser) : ℚ :=
  (get_crawl_delay parserOpt USER_AGENT).getD 1

/-! ### `extract_article_text` (`app/jobs/crawl_worker.py`, lines 45-113)

BeautifulSoup's HTML parsing is abstracted to its observable result after
the `decompose()` pass that removes script/style/nav/header/footer/aside:
`select` maps a CSS selector to the texts
(`element.get_text(strip=True, separator=" ")`) of the elements it
matches, in document order, and `body` is the text of the `<body>`
element when one exists.  Everything from the selector loop on is
translated from the source. -/

/-- A parsed HTML document, after removal of non-content elements. -/
structure Doc where
  select : String → List String
  body : Option String

/-- The ordered selector preference list `content_selectors`. -/
def content_selectors : List String :=
  ["article", "[role=\"article\"]", ".article-content", ".article-body",
   ".entry-content", ".post-content", ".content", "main", ".main-content"]

/-- The `for selector in content_selectors` loop: a selector with matches
overwrites `article_text` with the text of its first element and the loop
breaks once that text exceeds 100 characters; `acc` is the value of
`article_text` accumulated so far. -/
def selectLoop (doc : Doc) : List String → Option String → Option String
  | [], acc => acc
  | sel :: rest, acc =>
    match doc.select sel with
    | [] => selectLoop doc rest acc
    | t :: _ => if pyLen t > 100 then some t else selectLoop doc rest (some t)

/-- The whitespace post-processing: split on newlines, strip each line,
drop emptied lines, rejoin with newlines. -/
def cleanupText (s : String) : String :=
  String.mk (List.intercalate ['\n']
    (((splitChar '\n' s.data).map stripChars).filter (fun l => !l.isEmpty)))

/-- `extract_article_text(html_content, url)`: the selector loop, the
whole-body fallback when no selector produced substantial (> 100 chars,
rechecked as `< 100` at the fallback) content, the cleanup, and the
Python truthiness tests (`not article_text` and `if article_text:` treat
both `None` and the empty string as false). -/
def extract_article_text (doc : Doc) : Option String :=
  let article_text := selectLoop doc content_selectors none
  let article_text :=
    if (match article_text with
        | none => true
        | some t => t == "" || decide (pyLen t < 100)) then
      match doc.body with
      | some b => some b
      | none => article_text
    else article_text
  match article_text with
  | some t => if t == "" then none else some (cleanupText t)
  | none => none

/-! ### Crawl job data model (`app/models/crawl_job.py`,
`app/models/article_content.py`, `app/models/sentiment_analysis.py`) -/

/-- `CrawlStatus` enum. -/
inductive CrawlStatus where
  | PENDING
  | IN_PROGRESS
  | SUCCESS
  | FAILED
  | FORBIDDEN_BY_ROBOTS
  | RATE_LIMITED
deriving DecidableEq

/-- A `crawl_jobs` row (the columns the worker reads or writes). -/
structure CrawlJob where
  article_id : Nat
  status : CrawlStatus
  robots_allowed : Option Bool := none
  http_status : Option Nat := none
  bytes_downloaded : Option Nat := none
  fetched_at : Option ℚ := none
  error_code : Option String := none
  error_message : Option String := none
  created_at : ℚ := 0
deriving DecidableEq

/-- An `article_content` row. -/
structure ArticleContent where
  article_id : Nat
  content_text : String
  content_hash : String
  content_length : Nat
  extracted_at : ℚ
  expires_at : ℚ
deriving DecidableEq

/-- A `sentiment_analysis` row as inserted by the worker. -/
structure SentimentRow where
  article_id : Nat
  provider : String
  model_name : String
  score : ℚ
  label : String
  language : String
deriving DecidableEq

/-! ### `crawl_article` (`app/jobs/crawl_worker.py`, lines 116-296) -/

/-- A Python exception as classified by the two `except` clauses of
`crawl_article`: a `requests.RequestException` (network errors, timeouts,
and the `HTTPError` from `raise_for_status`), or any other exception.
`msg` is `str(e)`. -/
inductive PyExn where
  | requestExc (msg : String)
  | otherExc (msg : String)
deriving DecidableEq

/-- A returned `requests` response for the article URL: status code,
`len(response.content)`, the `str(e)` of the `HTTPError` that
`raise_for_status()` would raise on it, and the parsed `response.text`. -/
structure Response where
  status_code : Nat
  content_len : Nat
  httpErrorMsg : String
  doc : Doc

/-- The external interactions of one `crawl_article` call, each of which
may also raise: the `check_robots_compliance(url)` verdict, the
`respect_crawl_delay(domain, last_crawl)` verdict, the `requests.get`
outcome, and `analyze_sentiment` on the extracted text; plus the pure
externals `hashlib.sha256(...).hexdigest()`, the wall clock, and
`calculate_content_expiry()`. -/
structure CrawlEnv where
  robots_check : Except PyExn (Bool × String)
  rate_ok : Except PyExn Bool
  fetch : Except PyExn Response
  sentiment : String → Except PyExn (String × ℚ)
  sha256 : String → String
  now : ℚ
  expiry : ℚ

/-- The mutable state one `crawl_article` call touches: the job row, the
article's `article_content` row (buffered adds included, since every
terminal branch commits), whether a sentiment row was inserted, the
article's mirrored sentiment fields, whether
`_last_crawl_times[domain]` was assigned, and the function's return
value. -/
structure CrawlState where
  job : CrawlJob
  content : Option ArticleContent
  sentiment_row : Option SentimentRow
  article_sentiment : Option (String × ℚ)
  last_crawl_updated : Bool
  retval : Bool

/-- The body of `crawl_article`'s `try` block, starting from the commit
of `IN_PROGRESS`.  An `.ok` is one of the function's own `return`
statements; an `.error` is an exception escaping to the `except`
clauses, paired with the state mutated so far. -/
def crawl_article_core (env : CrawlEnv) (job0 : CrawlJob)
    (existing : Option ArticleContent) : Except (PyExn × CrawlState) CrawlState :=
  let st0 : CrawlState :=
    { job := { job0 with status := .IN_PROGRESS }, content := existing,
      sentiment_row := none, article_sentiment := none,
      last_crawl_updated := false, retval := false }
  match env.robots_check with
  | .error e => .error (e, st0)
  | .ok robots_check =>
    let st1 := { st0 with job := { st0.job with robots_allowed := some robots_check.1 } }
    if !robots_check.1 then
      .ok { st1 with job := { st1.job with
              status := .FORBIDDEN_BY_ROBOTS
              error_message := some robots_check.2 } }
    else
      match env.rate_ok with
      | .error e => .error (e, st1)
      | .ok ok =>
        if !ok then
          .ok { st1 with job := { st1.job with
                  status := .RATE_LIMITED
                  error_message := some "Rate limited - respecting crawl delay" } }
        else
          match env.fetch with
          | .error e => .error (e, st1)
          | .ok response =>
            let st2 := { st1 with last_crawl_updated := true }
            if 400 ≤ response.status_code ∧ response.status_code < 600 then
              .error (.requestExc response.httpErrorMsg, st2)
            else
              let st3 := { st2 with job := { st2.job with
                http_status := some response.status_code
                bytes_downloaded := some response.content_len
                fetched_at := some env.now } }
              match extract_article_text response.doc with
              | none =>
                .ok { st3 with job := { st3.job with
                  status := .FAILED
                  error_message := some "No article content could be extracted" } }
              | some article_text =>
                if article_text == "" then
                  .ok { st3 with job := { st3.job with
                    status := .FAILED
                    error_message := some "No article content could be extracted" } }
                else
                  let truncated_text := pyTake article_text 1024
                  let content_hash := env.sha256 article_text
                  let row : ArticleContent :=
                    { article_id := job0.article_id, content_text := truncated_text,
                      content_hash := content_hash, content_length := pyLen article_text,
                      extracted_at := env.now, expires_at := env.expiry }
                  let st4 := { st3 with content := some row }
                  match env.sentiment article_text with
                  | .error e => .error (e, st4)
                  | .ok sentiment =>
                    let srow : SentimentRow :=
                      { article_id := job0.article_id, provider := "VADER",
                        model_name := "vader_lexicon", score := sentiment.2,
                        label := sentiment.1, language := "en" }
                    let st5 := { st4 with
                      sentiment_row := some srow
                      article_sentiment := some sentiment }
                    .ok { st5 with
                      job := { st5.job with
                        status := .SUCCESS
                        error_message := none }
                      retval := true }

/-- The two `except` clauses of `crawl_article` (lines 276-296). -/
def handle_exception (e : PyExn) (st : CrawlState) : CrawlState :=
  match e with
  | .requestExc msg =>
    { st with job := { st.job with
        status := .FAILED
        error_code := some "NETWORK_ERROR"
        error_message := some ("Network error: " ++ msg) } }
  | .otherExc msg =>
    { st with job := { st.job with
        status := .FAILED
        error_code := some "PROCESSING_ERROR"
        error_message := some ("Processing error: " ++ msg) } }

/-- `crawl_article(crawl_job, db)`: the `try` body with its two handlers,
both of which persist before returning `False`. -/
def crawl_article (env : CrawlEnv) (job0 : CrawlJob)
    (existing : Option ArticleContent) : CrawlState :=
  match crawl_article_core env job0 existing with
  | .ok st => st
  | .error (e, st) => handle_exception e st

/-! ### Job store queries and the orchestrator
(`app/jobs/crawl_worker.py`, lines 299-427) -/

/-- `get_pending_crawl_jobs(db, limit)`: jobs with
`status == CrawlStatus.PENDING`, ordered by `created_at`, first `limit`
of them. -/
def get_pending_crawl_jobs (jobs : List CrawlJob) (limit : Nat) : List CrawlJob :=
  (((jobs.filter (fun j => j.status == .PENDING)).mergeSort
    (fun a b => decide (a.created_at ≤ b.created_at))).take limit)

/-- `create_crawl_jobs_for_articles(db, limit)`: articles (given by id)
whose id is in no `crawl_jobs` row of any status, up to `limit`, each get
a new PENDING job.  Returns the job table afterwards and the number of
jobs created. -/
def create_crawl_jobs_for_articles (articles : List Nat) (jobs : List CrawlJob)
    (limit : Nat) (now : ℚ) : List CrawlJob × Nat :=
  let articles_without_jobs :=
    (articles.filter (fun a => !(jobs.any (fun j => j.article_id == a)))).take limit
  let new_jobs := articles_without_jobs.map
    (fun a => ({ article_id := a, status := .PENDING, created_at := now } : CrawlJob))
  (jobs ++ new_jobs, new_jobs.length)

/-- The per-job loop of `run_crawl_worker` (lines 393-405): each job is
processed by `crawl_article` inside its own `try`, incrementing the
successful counter on `True` and the failed counter otherwise (the
`except` at the loop level also counts a failure, and in this model
`crawl_article` handles all raises itself).  Returns
(successful, failed, per-job results). -/
def crawl_loop : List (CrawlEnv × CrawlJob) → Nat × Nat × List CrawlState
  | [] => (0, 0, [])
  | (env, job) :: rest =>
    let r := crawl_article env job none
    let t := crawl_loop rest
    (if r.retval then t.1 + 1 else t.1,
     if r.retval then t.2.1 else t.2.1 + 1,
     r :: t.2.2)

/-- The summary dict `run_crawl_worker` returns (the `duration` field is
wall-clock time and is omitted). -/
structure RunSummary where
  processed : Nat
  successful : Nat
  failed : Nat
  new_jobs_created : Nat
deriving DecidableEq

/-- `run_crawl_worker(max_jobs)` from the point where the pending batch
is known: the job-creation step and the pending query are modelled by
their results (`new_jobs`, `pending` with each job's external
interactions).  An empty batch returns the zero summary early; otherwise
every pending job is processed sequentially and
`processed = len(pending_jobs)`. -/
def run_crawl_worker (pending : List (CrawlEnv × CrawlJob)) (new_jobs : Nat) :
    RunSummary × List CrawlState :=
  if pending.isEmpty then
    ({ processed := 0, successful := 0, failed := 0, new_jobs_created := new_jobs }, [])
  else
    let t := crawl_loop pending
    ({ processed := pending.length, successful := t.1, failed := t.2.1,
       new_jobs_created := new_jobs }, t.2.2)

/-- Number of `crawl_jobs` rows carrying a given article id. -/
def count_jobs_for (jobs : List CrawlJob) (a : Nat) : Nat :=
  (jobs.filter (fun j => j.article_id == a)).length

/-- Iterated runs of the job-creation step: each run has its own limit
and creation time. -/
def iterate_create (articles : List Nat) : List (Nat × ℚ) → List CrawlJob → List CrawlJob
  | [], jobs => jobs
  | (limit, now) :: runs, jobs =>
    iterate_create articles runs (create_crawl_jobs_for_articles articles jobs limit now).1

/-- Processing of one pending job by the loop (`crawl_article(job, db)`;
the article's possibly pre-existing content row is not read by any
status logic and is taken absent here). -/
def process (p : CrawlEnv × CrawlJob) : CrawlState := crawl_article p.1 p.2 none

/-- A selector that does not settle the selector loop on `doc`: it
matches nothing, or the text of its first matched element is not
substantial (at most 100 characters). -/
def selectorMisses (doc : Doc) (s : String) : Prop :=
  doc.select s = [] ∨ ∃ t ts, doc.select s = t :: ts ∧ pyLen t ≤ 100

/-! ### Concrete evaluation inputs -/

/-- A 200-character text (the `<article>` tag body of the spec's
selector-priority scenario). -/
def tA200 : String := String.mk (List.replicate 200 'a')

/-- A 500-character text (the `.content` div body of the same scenario). -/
def tB500 : String := String.mk (List.replicate 500 'b')

/-- A 5000-character extracted body (the spec's hashing scenario). -/
def tA5000 : String := String.mk (List.replicate 5000 'a')

/-- A document holding both a 200-character `<article>` element and a
500-character `.content` element. -/
def docPriority : Doc :=
  { select := fun s =>
      if s = "article" then [tA200]
      else if s = ".content" then [tB500]
      else []
    body := some tB500 }

/-- A document whose only text is a 5000-character body (no structural
selector matches, so extraction falls back to the body text). -/
def docBody5000 : Doc := { select := fun _ => [], body := some tA5000 }

/-- A 200 OK response carrying `docBody5000`. -/
def respBody5000 : Response :=
  { status_code := 200, content_len := 5000, httpErrorMsg := "", doc := docBody5000 }

/-- A sentiment oracle that always answers neutral. -/
def sentimentNeutral : String → Except PyExn (String × ℚ) := fun _ => .ok ("neutral", 0)

/-- A stand-in digest: the decimal length of the input.  It separates a
5000-character input from its 1024-character truncation, which is what
the hashing claim is about. -/
def lenDigest : String → String := fun s => toString (pyLen s)

/-- A fresh pending job for article 1. -/
def jobEx : CrawlJob := { article_id := 1, status := .PENDING, created_at := 0 }

/-- Environment of a fully successful crawl of a 5000-character page. -/
def envSuccess5000 : CrawlEnv :=
  { robots_check := .ok (true, "Allowed by robots.txt"), rate_ok := .ok true,
    fetch := .ok respBody5000, sentiment := sentimentNeutral,
    sha256 := lenDigest, now := 0, expiry := 3600 }

/-- Environment whose article fetch raises a `requests` timeout. -/
def envNetErr : CrawlEnv :=
  { robots_check := .ok (true, "Allowed by robots.txt"), rate_ok := .ok true,
    fetch := .error (.requestExc "Read timed out"), sentiment := sentimentNeutral,
    sha256 := lenDigest, now := 0, expiry := 3600 }

/-- Environment whose robots check denies the URL. -/
def envForbidden : CrawlEnv :=
  { robots_check := .ok (false, "Disallowed by robots.txt for user-agent \x27aifeelnews-bot\x27"),
    rate_ok := .ok true, fetch := .error (.requestExc "unreached"),
    sentiment := sentimentNeutral, sha256 := lenDigest, now := 0, expiry := 3600 }

/-- Environment whose article fetch raises an unexpected (non-`requests`)
exception. -/
def envBoom : CrawlEnv :=
  { robots_check := .ok (true, "Allowed by robots.txt"), rate_ok := .ok true,
    fetch := .error (.otherExc "boom"), sentiment := sentimentNeutral,
    sha256 := lenDigest, now := 0, expiry := 3600 }

/-- Pending jobs 1, 2, 3 of the batch-resilience scenario. -/
def jobW1 : CrawlJob := { article_id := 1, status := .PENDING, created_at := 0 }

/-- Second job of the batch-resilience scenario. -/
def jobW2 : CrawlJob := { article_id := 2, status := .PENDING, created_at := 1 }

/-- Third job of the batch-resilience scenario. -/
def jobW3 : CrawlJob := { article_id := 3, status := .PENDING, created_at := 2 }

/-- The state `crawl_article`'s `try` body has accumulated when
`envBoom`'s fetch raises on `jobW2`. -/
def stBoom : CrawlState :=
  { job := { jobW2 with status := .IN_PROGRESS, robots_allowed := some true }
    content := none
    sentiment_row := none
    article_sentiment := none
    last_crawl_updated := false
    retval := false }

/-- A job persisted as RATE_LIMITED by an earlier run. -/
def rate_limited_job : CrawlJob :=
  { article_id := 7, status := .RATE_LIMITED, created_at := 0 }

/-!
## Theorems
-/

/-- C1: the claim says a domain whose robots.txt fetch returns HTTP 404
gets a permissive policy, with `is_url_allowed` true for every path and
agent.  The code instead returns, and caches, a freshly constructed
`RobotFileParser` on which `read`/`parse` never ran; CPython's
`can_fetch` answers `False` whenever `last_checked` is still zero, so
every path and every agent on such a domain is DENIED — contradicting
the branch's own comment ("No robots.txt means we can crawl (permissive
default)") and log line ("allowing all").  This theorem evaluates the
code at the failing input: empty cache, HTTPS attempt answering 404. -/
theorem is_url_allowed_404_denies_all (body : RobotsTxtBody) (fallback : HttpResult)
    (now : ℚ) (ua path : String) :
    (is_url_allowed none now (.resp 404 body) fallback ua path).1.1 = false ∧
    (is_url_allowed none now (.resp 404 body) fallback ua path).2 =
      some ⟨RobotFileParser.init, now⟩ ∧
    RobotFileParser.init.can_fetch ua path = false := by
  refine ⟨rfl, rfl, rfl⟩

/-- C2: the claim says a job left RATE_LIMITED is picked up again by a
later run's `get_pending_crawl_jobs`.  The query filters on
`status == CrawlStatus.PENDING` only, so a RATE_LIMITED job is never
selected again (despite the code's own "will retry later" log):
evaluated here on a table holding exactly that job. -/
theorem rate_limited_job_never_repicked :
    rate_limited_job.status = .RATE_LIMITED ∧
    get_pending_crawl_jobs [rate_limited_job] 10 = [] := by
  constructor
  · rfl
  · have h : (CrawlStatus.RATE_LIMITED == CrawlStatus.PENDING) = false := rfl
    simp [get_pending_crawl_jobs, rate_limited_job, List.filter, h]

/-- C4: `respect_crawl_delay` returns true on first contact
(`last_crawl_time` absent), and otherwise true exactly when
`now - last_fetch_time ≥ effective_delay`, the effective delay being the
crawl-delay reported from robots.txt when present and the 1.0-second
default otherwise; including the spec's two concrete rate-gate readings
(0.5 s elapsed → false, 1.5 s elapsed → true). -/
theorem respect_crawl_delay_gate (parserOpt : Option RobotFileParser) (now t : ℚ) :
    respect_crawl_delay parserOpt now none = true ∧
    (respect_crawl_delay parserOpt now (some t) = true ↔
      now - t ≥ effective_delay parserOpt) ∧
    respect_crawl_delay none 10 (some (19/2)) = false ∧
    respect_crawl_delay none 10 (some (17/2)) = true := by
  refine ⟨rfl, ?_, ?_, ?_⟩
  · simp only [respect_crawl_delay, effective_delay]
    cases h : get_crawl_delay parserOpt USER_AGENT <;>
      simp [h, Option.getD, decide_eq_true_eq]
  · have h : ¬ ((10 : ℚ) - 19 / 2 ≥ 1) := by norm_num
    simp [respect_crawl_delay, get_crawl_delay, h]
  · have h : ((10 : ℚ) - 17 / 2 ≥ 1) := by norm_num
    simp [respect_crawl_delay, get_crawl_delay, h]

/-- Helper: every `return` of `crawl_article`'s `try` body carries a
terminal status, with `retval = true` exactly on SUCCESS; and the state
at any raise still has `retval = false`. -/
theorem crawl_article_core_props (env : CrawlEnv) (job0 : CrawlJob)
    (existing : Option ArticleContent) :
    (∀ st, crawl_article_core env job0 existing = .ok st →
      ((st.job.status = .SUCCESS ∨ st.job.status = .FAILED ∨
        st.job.status = .FORBIDDEN_BY_ROBOTS ∨ st.job.status = .RATE_LIMITED) ∧
       (st.retval = true ↔ st.job.status = .SUCCESS))) ∧
    (∀ e st, crawl_article_core env job0 existing = .error (e, st) →
      st.retval = false) := by
  constructor
  · intro st h
    simp only [crawl_article_core] at h
    repeat' split at h
    all_goals first
      | (exact (Except.noConfusion h))
      | (injection h with h; subst h; simp)
  · intro e st h
    simp only [crawl_article_core] at h
    repeat' split at h
    all_goals first
      | (exact (Except.noConfusion h))
      | (injection h with h; injection h with h1 h2; subst h2; simp)

/-- Helper: the exception handlers only touch status and the error
fields; the rate-limiter bookkeeping flag survives them. -/
theorem handle_exception_last_crawl (e : PyExn) (st : CrawlState) :
    (handle_exception e st).last_crawl_updated = st.last_crawl_updated := by
  cases e <;> rfl

/-- Helper: the exception handlers leave the buffered content row as it
was (the handler commit persists it). -/
theorem handle_exception_content (e : PyExn) (st : CrawlState) :
    (handle_exception e st).content = st.content := by
  cases e <;> rfl

/-- Helper: `crawl_article` always ends in one of the four terminal
statuses, and returns `True` exactly when that status is SUCCESS. -/
theorem crawl_article_props (env : CrawlEnv) (job0 : CrawlJob)
    (existing : Option ArticleContent) :
    ((crawl_article env job0 existing).job.status = .SUCCESS ∨
     (crawl_article env job0 existing).job.status = .FAILED ∨
     (crawl_article env job0 existing).job.status = .FORBIDDEN_BY_ROBOTS ∨
     (crawl_article env job0 existing).job.status = .RATE_LIMITED) ∧
    ((crawl_article env job0 existing).retval = true ↔
     (crawl_article env job0 existing).job.status = .SUCCESS) := by
  rcases h : crawl_article_core env job0 existing with ⟨e, st⟩ | st
  · have hr : st.retval = false := (crawl_article_core_props env job0 existing).2 e st h
    simp only [crawl_article, h]
    cases e <;> simp [handle_exception, hr]
  · simp only [crawl_article, h]
    exact (crawl_article_core_props env job0 existing).1 st h

/-- C7: a processing attempt that completes without crashing leaves the
job in exactly one of the four terminal statuses — SUCCESS, FAILED,
FORBIDDEN_BY_ROBOTS or RATE_LIMITED — never PENDING or IN_PROGRESS:
every return path of `crawl_article`, including its two exception
handlers, assigns a terminal status. -/
theorem crawl_article_terminal_status (env : CrawlEnv) (job0 : CrawlJob)
    (existing : Option ArticleContent) :
    (crawl_article env job0 existing).job.status = .SUCCESS ∨
    (crawl_article env job0 existing).job.status = .FAILED ∨
    (crawl_article env job0 existing).job.status = .FORBIDDEN_BY_ROBOTS ∨
    (crawl_article env job0 existing).job.status = .RATE_LIMITED :=
  (crawl_article_props env job0 existing).1

/-- Helper: the Boolean `crawl_article` returns agrees with the
SUCCESS test on the final status. -/
theorem process_retval_eq (p : CrawlEnv × CrawlJob) :
    (process p).retval = ((process p).job.status == CrawlStatus.SUCCESS) := by
  unfold process
  rw [Bool.eq_iff_iff, beq_iff_eq]
  exact (crawl_article_props p.1 p.2 none).2

/-- Helper: the per-job loop counts exactly the `True`/non-`True`
returns and collects one result per job, in order. -/
theorem crawl_loop_spec (l : List (CrawlEnv × CrawlJob)) :
    crawl_loop l = ((l.map process).countP (fun st => st.retval),
      (l.map process).countP (fun st => !st.retval), l.map process) := by
  induction l with
  | nil => rfl
  | cons p rest ih =>
    obtain ⟨env, job⟩ := p
    simp only [crawl_loop, ih, List.map_cons, List.countP_cons, process]
    cases hr : (crawl_article env job none).retval <;> simp [hr]

/-- C10: the run summary satisfies `processed = successful + failed`,
each batch job contributing to exactly one of the two counters, and the
failed counter counts exactly the jobs whose final status is not
SUCCESS (FORBIDDEN_BY_ROBOTS and RATE_LIMITED included), while
successful counts exactly the SUCCESS jobs. -/
theorem run_summary_partition (pending : List (CrawlEnv × CrawlJob)) (new_jobs : Nat) :
    (run_crawl_worker pending new_jobs).1.processed =
      (run_crawl_worker pending new_jobs).1.successful +
        (run_crawl_worker pending new_jobs).1.failed ∧
    (run_crawl_worker pending new_jobs).1.processed =
      (run_crawl_worker pending new_jobs).2.length ∧
    (run_crawl_worker pending new_jobs).1.successful =
      ((run_crawl_worker pending new_jobs).2.filter
        (fun st => st.job.status == CrawlStatus.SUCCESS)).length ∧
    (run_crawl_worker pending new_jobs).1.failed =
      ((run_crawl_worker pending new_jobs).2.filter
        (fun st => !(st.job.status == CrawlStatus.SUCCESS))).length := by
  cases pending with
  | nil => exact ⟨rfl, rfl, rfl, rfl⟩
  | cons p rest =>
    have hcongr : ∀ st ∈ (p :: rest).map process,
        st.retval = (st.job.status == CrawlStatus.SUCCESS) := by
      intro st hst
      rcases List.mem_map.mp hst with ⟨q, _, rfl⟩
      exact process_retval_eq q
    have h1 : List.countP (fun st => st.retval) (List.map process (p :: rest)) =
        List.countP (fun st => st.job.status == CrawlStatus.SUCCESS)
          (List.map process (p :: rest)) :=
      List.countP_congr (fun x hx => by rw [hcongr x hx])
    have h2 : List.countP (fun st => !st.retval) (List.map process (p :: rest)) =
        List.countP (fun st => !(st.job.status == CrawlStatus.SUCCESS))
          (List.map process (p :: rest)) :=
      List.countP_congr (fun x hx => by rw [hcongr x hx])
    have hpart : ∀ L : List CrawlState,
        L.length = L.countP (fun st => st.retval) + L.countP (fun st => !st.retval) := by
      intro L
      induction L with
      | nil => rfl
      | cons a l ih =>
        simp only [List.countP_cons, List.length_cons, ih]
        cases ha : a.retval <;> simp [ha] <;> omega
    have hlen := hpart (List.map process (p :: rest))
    rw [List.length_map] at hlen
    simp only [run_crawl_worker, List.isEmpty_cons, Bool.false_eq_true, if_false,
      crawl_loop_spec]
    refine ⟨hlen, by simp, ?_, ?_⟩
    · rw [h1, List.countP_eq_length_filter]
    · rw [h2, List.countP_eq_length_filter]

/-- C3 counterexample: the claim says the rate limiter's last-fetch
timestamp is updated after the attempted fetch even on a network
error/timeout.  On this input the fetch raises a `requests` timeout; the
job is persisted FAILED/NETWORK_ERROR — the fetch was attempted — yet
`_last_crawl_times[domain]` is never assigned, because the assignment
sits after the `requests.get` call and the exception skips it. -/
theorem network_error_skips_rate_limiter_update :
    (crawl_article envNetErr jobEx none).job.status = .FAILED ∧
    (crawl_article envNetErr jobEx none).job.error_code = some "NETWORK_ERROR" ∧
    (crawl_article envNetErr jobEx none).last_crawl_updated = false :=
  ⟨rfl, rfl, rfl⟩

/-- C3 amended: for a job that passes the robots and rate-limit checks,
the rate limiter's last-fetch timestamp for the domain is updated iff
`requests.get` returns a response — any status code, 2xx or not — and is
NOT updated when the request raises a network error/timeout. -/
theorem last_crawl_updated_iff_response (env : CrawlEnv) (job0 : CrawlJob)
    (existing : Option ArticleContent) (rc : Bool × String)
    (h1 : env.robots_check = .ok rc) (h2 : rc.1 = true)
    (h3 : env.rate_ok = .ok true) :
    ((crawl_article env job0 existing).last_crawl_updated = true ↔
      ∃ r, env.fetch = .ok r) := by
  have hflag : ∀ b, (∀ st, crawl_article_core env job0 existing = .ok st →
        st.last_crawl_updated = b) →
      (∀ e st, crawl_article_core env job0 existing = .error (e, st) →
        st.last_crawl_updated = b) →
      (crawl_article env job0 existing).last_crawl_updated = b := by
    intro b hok herr
    rcases hc : crawl_article_core env job0 existing with ⟨e, st⟩ | st
    · rw [crawl_article, hc, handle_exception_last_crawl]
      exact herr e st hc
    · rw [crawl_article, hc]
      exact hok st hc
  rcases hf : env.fetch with e0 | r
  · rw [hflag false ?hok ?herr]
    case hok =>
      intro st h
      simp only [crawl_article_core, h1, h2, h3, hf, Bool.not_true,
        Bool.false_eq_true, if_false] at h
      exact Except.noConfusion h
    case herr =>
      intro e st h
      simp only [crawl_article_core, h1, h2, h3, hf, Bool.not_true,
        Bool.false_eq_true, if_false] at h
      injection h with h
      injection h with ha hb
      subst hb
      rfl
    simp [hf]
  · rw [hflag true ?hok ?herr]
    case hok =>
      intro st h
      simp only [crawl_article_core, h1, h2, h3, hf, Bool.not_true,
        Bool.false_eq_true, if_false] at h
      repeat' split at h
      all_goals first
        | (exact (Except.noConfusion h))
        | (injection h with h; subst h; rfl)
    case herr =>
      intro e st h
      simp only [crawl_article_core, h1, h2, h3, hf, Bool.not_true,
        Bool.false_eq_true, if_false] at h
      repeat' split at h
      all_goals first
        | (exact (Except.noConfusion h))
        | (injection h with h; injection h with ha hb; subst hb; rfl)
    exact iff_of_true rfl ⟨r, rfl⟩

/-- C3 amended, witness: a successful fetch updates the timestamp. -/
theorem last_crawl_updated_iff_response_witness :
    (crawl_article envSuccess5000 jobEx none).last_crawl_updated = true :=
  (last_crawl_updated_iff_response envSuccess5000 jobEx none
    (true, "Allowed by robots.txt") rfl rfl rfl).mpr ⟨respBody5000, rfl⟩

/-- Helper: splitting a repeated non-separator character yields one
field. -/
theorem splitChar_replicate (c a : Char) (h : a ≠ c) (n : Nat) :
    splitChar c (List.replicate n a) = [List.replicate n a] := by
  induction n with
  | zero => rfl
  | succ n ih => simp [List.replicate_succ, splitChar, ih, h]

/-- Helper: stripping a repeated non-whitespace character is the
identity. -/
theorem stripChars_replicate (a : Char) (h : a.isWhitespace = false) (n : Nat) :
    stripChars (List.replicate n a) = List.replicate n a := by
  unfold stripChars
  cases n with
  | zero => rfl
  | succ n =>
    rw [List.replicate_succ, List.dropWhile_cons_of_neg (by simp [h]),
      ← List.replicate_succ, List.reverse_replicate, List.replicate_succ,
      List.dropWhile_cons_of_neg (by simp [h]), ← List.replicate_succ,
      List.reverse_replicate]

/-- Helper: the whitespace post-processing is the identity on a nonempty
run of a single printable non-newline character. -/
theorem cleanupText_replicate (a : Char) (h1 : a ≠ '\n')
    (h2 : a.isWhitespace = false) (n : Nat) (h3 : n ≠ 0) :
    cleanupText (String.mk (List.replicate n a)) = String.mk (List.replicate n a) := by
  have hne : (List.replicate n a).isEmpty = false := by
    cases n with
    | zero => exact absurd rfl h3
    | succ n => simp [List.replicate_succ]
  unfold cleanupText
  rw [show (String.mk (List.replicate n a)).data = List.replicate n a from rfl,
    splitChar_replicate _ _ h1]
  simp only [List.map_cons, List.map_nil, stripChars_replicate a h2,
    List.filter_cons, List.filter_nil, hne, Bool.not_false, if_pos rfl]
  simp [List.intercalate, List.intersperse_singleton]

/-- Helper: the selector loop returns the first matched element's text of
the first selector whose text is substantial, regardless of what earlier
missing selectors left in the accumulator. -/
theorem selectLoop_breaks (doc : Doc) (pre : List String) (sel t : String)
    (ts post : List String) (acc : Option String)
    (hpre : ∀ s ∈ pre, selectorMisses doc s)
    (hsel : doc.select sel = t :: ts) (hlen : 100 < pyLen t) :
    selectLoop doc (pre ++ sel :: post) acc = some t := by
  induction pre generalizing acc with
  | nil =>
    simp only [List.nil_append, selectLoop, hsel]
    rw [if_pos hlen]
  | cons s pre ih =>
    have hs := hpre s (List.mem_cons_self s pre)
    have hpre' : ∀ x ∈ pre, selectorMisses doc x :=
      fun x hx => hpre x (List.mem_cons_of_mem s hx)
    rcases hs with h0 | ⟨u, us, hu, hule⟩
    · simp only [List.cons_append, selectLoop, h0]
      exact ih acc hpre'
    · simp only [List.cons_append, selectLoop, hu]
      rw [if_neg (by omega)]
      exact ih (some u) hpre'

/-- C6: the extractor walks the fixed selector priority list and returns
the (whitespace-post-processed) text of the first matched element of the
first selector whose text exceeds 100 characters: every selector before
it either matched nothing or matched only non-substantial text, and
neither those earlier matches nor any later, larger block is returned. -/
theorem extract_first_matching_selector (doc : Doc) (pre post : List String)
    (sel t : String) (ts : List String)
    (hsels : content_selectors = pre ++ sel :: post)
    (hpre : ∀ s ∈ pre, selectorMisses doc s)
    (hsel : doc.select sel = t :: ts) (hlen : 100 < pyLen t) :
    extract_article_text doc = some (cleanupText t) := by
  have hloop := selectLoop_breaks doc pre sel t ts post none hpre hsel hlen
  have htne : (t == "") = false := by
    rw [beq_eq_false_iff_ne]
    intro ht
    subst ht
    simp [pyLen] at hlen
  have hlt : decide (pyLen t < 100) = false := by
    rw [decide_eq_false_iff_not]
    omega
  unfold extract_article_text
  rw [hsels, hloop]
  simp only [htne, hlt, Bool.or_self, Bool.false_eq_true, if_false]

/-- C6 witness: on a document with a 200-character `<article>` element
and a 500-character `.content` element, the extractor returns exactly the
`<article>` text, not the larger block. -/
theorem extract_first_matching_selector_witness :
    extract_article_text docPriority = some tA200 ∧ tA200 ≠ tB500 ∧
    pyLen tA200 = 200 ∧ pyLen tB500 = 500 := by
  refine ⟨?_, ?_, by simp [pyLen, tA200], by simp [pyLen, tB500]⟩
  · have h := extract_first_matching_selector docPriority []
      ["[role=\"article\"]", ".article-content", ".article-body",
       ".entry-content", ".post-content", ".content", "main", ".main-content"]
      "article" tA200 [] rfl (fun s hs => absurd hs (List.not_mem_nil s)) rfl
      (by simp [pyLen, tA200])
    rw [h, show cleanupText tA200 = tA200 from
      cleanupText_replicate 'a' (by decide) (by decide) 200 (by decide)]
  · intro heq
    have := congrArg pyLen heq
    simp [pyLen, tA200, tB500] at this

/-- Helper: a nonempty repeated-character text is not the empty string. -/
theorem tA5000_ne_empty : (tA5000 == "") = false := by
  rw [beq_eq_false_iff_ne]
  intro h
  have hd : (List.replicate 5000 'a').length = ([] : List Char).length :=
    congrArg List.length (congrArg String.data h)
  rw [List.length_replicate, List.length_nil] at hd
  exact absurd hd (by norm_num)

/-- Helper: on the 5000-character-body document, extraction falls back to
the whole body and returns the full 5000-character text. -/
theorem extract_docBody5000 : extract_article_text docBody5000 = some tA5000 := by
  have hloop : selectLoop docBody5000 content_selectors none = none := by
    simp [selectLoop, content_selectors, docBody5000]
  unfold extract_article_text
  rw [hloop]
  simp only [docBody5000]
  rw [if_pos trivial]
  simp only [tA5000_ne_empty, Bool.false_eq_true, if_false]
  rw [show cleanupText tA5000 = tA5000 from by
    unfold tA5000
    exact cleanupText_replicate 'a' (by decide) (by decide) 5000 (by decide)]

/-- C5: whenever an attempt reaches a successful extraction with full
text `t`, the ArticleContent row it persists has `content_hash` computed
over the untruncated `t`, `content_length` equal to the length of the
untruncated `t`, and `content_text` equal to `t` cut to its first 1024
characters — and this holds whether or not the subsequent sentiment step
raises, since the handler's commit persists the buffered row. -/
theorem content_row_hashes_full_text (env : CrawlEnv) (job0 : CrawlJob)
    (existing : Option ArticleContent) (rc : Bool × String) (r : Response) (t : String)
    (h1 : env.robots_check = .ok rc) (h2 : rc.1 = true) (h3 : env.rate_ok = .ok true)
    (h4 : env.fetch = .ok r) (h5 : r.status_code < 400)
    (h6 : extract_article_text r.doc = some t) (h7 : (t == "") = false) :
    (crawl_article env job0 existing).content =
      some { article_id := job0.article_id, content_text := pyTake t 1024,
             content_hash := env.sha256 t, content_length := pyLen t,
             extracted_at := env.now, expires_at := env.expiry } := by
  have hnot : ¬ (400 ≤ r.status_code ∧ r.status_code < 600) := by omega
  have hok : ∀ st, crawl_article_core env job0 existing = .ok st →
      st.content = some
        { article_id := job0.article_id, content_text := pyTake t 1024,
          content_hash := env.sha256 t, content_length := pyLen t,
          extracted_at := env.now, expires_at := env.expiry } := by
    intro st h
    simp only [crawl_article_core, h1, h2, h3, h4, Bool.not_true, Bool.false_eq_true,
      if_false, if_neg hnot, h6, h7] at h
    repeat' split at h
    all_goals first
      | (exact (Except.noConfusion h))
      | (injection h with h; subst h; rfl)
  have herr : ∀ e st, crawl_article_core env job0 existing = .error (e, st) →
      st.content = some
        { article_id := job0.article_id, content_text := pyTake t 1024,
          content_hash := env.sha256 t, content_length := pyLen t,
          extracted_at := env.now, expires_at := env.expiry } := by
    intro e st h
    simp only [crawl_article_core, h1, h2, h3, h4, Bool.not_true, Bool.false_eq_true,
      if_false, if_neg hnot, h6, h7] at h
    repeat' split at h
    all_goals first
      | (exact (Except.noConfusion h))
      | (injection h with h; injection h with ha hb; subst hb; rfl)
  rcases hc : crawl_article_core env job0 existing with ⟨e, st⟩ | st
  · rw [crawl_article, hc, handle_exception_content]
    exact herr e st hc
  · rw [crawl_article, hc]
    exact hok st hc

/-- C5 witness: a crawl of a page whose extracted body is exactly 5000
characters stores the 1024-character truncation, records
`content_length = 5000`, and hashes the full 5000-character text (under
the length-digest stand-in, the digest is "5000", not "1024"). -/
theorem content_row_hashes_full_text_witness :
    (crawl_article envSuccess5000 jobEx none).content =
      some { article_id := 1, content_text := String.mk (List.replicate 1024 'a'),
             content_hash := "5000", content_length := 5000,
             extracted_at := 0, expires_at := 3600 } ∧
    pyLen tA5000 = 5000 ∧ pyLen (pyTake tA5000 1024) = 1024 := by
  have h := content_row_hashes_full_text envSuccess5000 jobEx none
    (true, "Allowed by robots.txt") respBody5000 tA5000 rfl rfl rfl rfl
    (by decide) extract_docBody5000 tA5000_ne_empty
  have htake : pyTake tA5000 1024 = String.mk (List.replicate 1024 'a') := by
    unfold pyTake tA5000
    rw [show (String.mk (List.replicate 5000 'a')).data = List.replicate 5000 'a' from rfl,
      List.take_replicate, show min 1024 5000 = 1024 from by norm_num]
  have hdig : lenDigest tA5000 = "5000" := by
    unfold lenDigest tA5000 pyLen
    rw [show (String.mk (List.replicate 5000 'a')).data = List.replicate 5000 'a' from rfl,
      List.length_replicate]
    rfl
  have hlen : pyLen tA5000 = 5000 := by
    unfold pyLen tA5000
    rw [show (String.mk (List.replicate 5000 'a')).data = List.replicate 5000 'a' from rfl,
      List.length_replicate]
  have h1024 : pyLen (pyTake tA5000 1024) = 1024 := by
    rw [htake]
    unfold pyLen
    rw [show (String.mk (List.replicate 1024 'a')).data = List.replicate 1024 'a' from rfl,
      List.length_replicate]
  refine ⟨?_, hlen, h1024⟩
  rw [h]
  simp only [envSuccess5000, jobEx, htake, hlen]
  rw [hdig]

/-- Helper: the two counters of the per-job loop partition the batch. -/
theorem countP_retval_partition (L : List CrawlState) :
    L.countP (fun st => st.retval) + L.countP (fun st => !st.retval) = L.length := by
  induction L with
  | nil => rfl
  | cons a l ih =>
    simp only [List.countP_cons, List.length_cons]
    cases ha : a.retval <;> simp [ha] <;> omega

/-- C8: an unexpected (non-`requests`) exception raised while processing
one job of a batch is caught at that job: the job is persisted FAILED
with `error_code = PROCESSING_ERROR` and the exception message, every
other job in the batch is still processed and contributes its own result
in order, and the summary still counts every job exactly once. -/
theorem unexpected_exception_is_contained (pre post : List (CrawlEnv × CrawlJob))
    (env : CrawlEnv) (job0 : CrawlJob) (new_jobs : Nat) (msg : String)
    (st0 : CrawlState)
    (hex : crawl_article_core env job0 none = .error (.otherExc msg, st0)) :
    (run_crawl_worker (pre ++ (env, job0) :: post) new_jobs).2 =
      pre.map process ++ crawl_article env job0 none :: post.map process ∧
    (crawl_article env job0 none).job.status = .FAILED ∧
    (crawl_article env job0 none).job.error_code = some "PROCESSING_ERROR" ∧
    (crawl_article env job0 none).job.error_message =
      some ("Processing error: " ++ msg) ∧
    (run_crawl_worker (pre ++ (env, job0) :: post) new_jobs).1.processed =
      pre.length + 1 + post.length ∧
    (run_crawl_worker (pre ++ (env, job0) :: post) new_jobs).1.successful +
      (run_crawl_worker (pre ++ (env, job0) :: post) new_jobs).1.failed =
      pre.length + 1 + post.length := by
  have hnonempty : (pre ++ (env, job0) :: post).isEmpty = false := by
    cases pre <;> rfl
  have hca : crawl_article env job0 none = handle_exception (.otherExc msg) st0 := by
    rw [crawl_article, hex]
  refine ⟨?_, ?_, ?_, ?_, ?_, ?_⟩
  · simp only [run_crawl_worker, hnonempty, Bool.false_eq_true, if_false,
      crawl_loop_spec, List.map_append, List.map_cons]
    rfl
  · rw [hca]; rfl
  · rw [hca]; rfl
  · rw [hca]; rfl
  · simp only [run_crawl_worker, hnonempty, Bool.false_eq_true, if_false,
      List.length_append, List.length_cons]
    omega
  · simp only [run_crawl_worker, hnonempty, Bool.false_eq_true, if_false,
      crawl_loop_spec]
    rw [countP_retval_partition, List.length_map]
    simp only [List.length_append, List.length_cons]
    omega

/-- C8 witness: three pending jobs; job 2's fetch raises an unexpected
exception, jobs 1 and 3 are denied by robots.txt — all three reach a
terminal status and the summary counts 3 processed, 0 + 3 = 3. -/
theorem unexpected_exception_is_contained_witness :
    (crawl_article envBoom jobW2 none).job.status = .FAILED ∧
    (crawl_article envBoom jobW2 none).job.error_code = some "PROCESSING_ERROR" ∧
    (run_crawl_worker [(envForbidden, jobW1), (envBoom, jobW2),
      (envForbidden, jobW3)] 0).1.processed = 3 ∧
    (run_crawl_worker [(envForbidden, jobW1), (envBoom, jobW2),
      (envForbidden, jobW3)] 0).1.successful +
      (run_crawl_worker [(envForbidden, jobW1), (envBoom, jobW2),
        (envForbidden, jobW3)] 0).1.failed = 3 ∧
    (crawl_article envForbidden jobW1 none).job.status = .FORBIDDEN_BY_ROBOTS ∧
    (crawl_article envForbidden jobW3 none).job.status = .FORBIDDEN_BY_ROBOTS := by
  have h := unexpected_exception_is_contained [(envForbidden, jobW1)]
    [(envForbidden, jobW3)] envBoom jobW2 0 "boom" stBoom rfl
  exact ⟨h.2.1, h.2.2.1, h.2.2.2.2.1, h.2.2.2.2.2, rfl, rfl⟩

/-- Helper: in a duplicate-free list, at most one element equals `a`. -/
theorem nodup_filter_beq_length_le_one (l : List Nat) (hl : l.Nodup) (a : Nat) :
    (l.filter (fun x => x == a)).length ≤ 1 := by
  have h := List.nodup_iff_count_le_one.mp hl a
  rw [List.count_eq_countP, List.countP_eq_length_filter] at h
  exact h

/-- Helper: the jobs created by one run split off as the new-batch
occurrences of `a` on top of the existing count. -/
theorem create_jobs_count_split (articles : List Nat) (jobs : List CrawlJob)
    (limit : Nat) (now : ℚ) (a : Nat) :
    count_jobs_for (create_crawl_jobs_for_articles articles jobs limit now).1 a =
      count_jobs_for jobs a +
      (((articles.filter
          (fun x => !(jobs.any (fun j => j.article_id == x)))).take limit).filter
        (fun x => x == a)).length := by
  unfold create_crawl_jobs_for_articles count_jobs_for
  rw [List.filter_append, List.length_append, List.filter_map, List.length_map]
  rfl

/-- Helper: if article `a` occurs in the new batch, it had no job row of
any status before the run. -/
theorem mem_new_batch_no_existing (articles : List Nat) (jobs : List CrawlJob)
    (limit : Nat) (a : Nat)
    (hz : (((articles.filter
        (fun x => !(jobs.any (fun j => j.article_id == x)))).take limit).filter
      (fun x => x == a)).length ≠ 0) :
    count_jobs_for jobs a = 0 := by
  obtain ⟨x, hx⟩ := List.exists_mem_of_length_pos (Nat.pos_of_ne_zero hz)
  have hx' := List.mem_filter.mp hx
  have hxa : x = a := by simpa using hx'.2
  subst hxa
  have hq := (List.mem_filter.mp (List.mem_of_mem_take hx'.1)).2
  have hany : jobs.any (fun j => j.article_id == x) = false := by
    cases hh : jobs.any (fun j => j.article_id == x) with
    | false => rfl
    | true => rw [hh] at hq; exact absurd hq (by decide)
  unfold count_jobs_for
  rw [List.length_eq_zero, List.filter_eq_nil_iff]
  exact List.any_eq_false.mp hany

/-- Helper: one run of job creation preserves "at most one job row per
article" whenever the article table has no duplicate ids. -/
theorem create_jobs_preserves_le_one (articles : List Nat)
    (hnodup : articles.Nodup) (jobs : List CrawlJob) (limit : Nat) (now : ℚ)
    (a : Nat) (hle : count_jobs_for jobs a ≤ 1) :
    count_jobs_for (create_crawl_jobs_for_articles articles jobs limit now).1 a ≤ 1 := by
  rw [create_jobs_count_split]
  have hsub : ((articles.filter
      (fun x => !(jobs.any (fun j => j.article_id == x)))).take limit).Sublist articles :=
    (List.take_sublist _ _).trans (List.filter_sublist _)
  have hle1 := nodup_filter_beq_length_le_one _ (hsub.nodup hnodup) a
  by_cases hzero : (((articles.filter
      (fun x => !(jobs.any (fun j => j.article_id == x)))).take limit).filter
        (fun x => x == a)).length = 0
  · omega
  · have h0 := mem_new_batch_no_existing articles jobs limit a hzero
    omega

/-- Helper: a run of job creation leaves the count of an article that
already has a row unchanged. -/
theorem create_jobs_keeps_existing (articles : List Nat) (jobs : List CrawlJob)
    (limit : Nat) (now : ℚ) (a : Nat) (hge : 1 ≤ count_jobs_for jobs a) :
    count_jobs_for (create_crawl_jobs_for_articles articles jobs limit now).1 a =
      count_jobs_for jobs a := by
  rw [create_jobs_count_split]
  by_cases hzero : (((articles.filter
      (fun x => !(jobs.any (fun j => j.article_id == x)))).take limit).filter
        (fun x => x == a)).length = 0
  · omega
  · have h0 := mem_new_batch_no_existing articles jobs limit a hzero
    omega

/-- C9: job creation only creates a job for an article with no CrawlJob
row of any status — an article that already has one keeps exactly its
previous count — so, the article ids being unique, no article ever
accumulates two rows, over any number of runs. -/
theorem create_jobs_never_duplicates (articles : List Nat)
    (hnodup : articles.Nodup) :
    (∀ jobs limit now a, count_jobs_for jobs a ≤ 1 →
      count_jobs_for (create_crawl_jobs_for_articles articles jobs limit now).1 a ≤ 1) ∧
    (∀ jobs limit now a, 1 ≤ count_jobs_for jobs a →
      count_jobs_for (create_crawl_jobs_for_articles articles jobs limit now).1 a =
        count_jobs_for jobs a) ∧
    (∀ runs a, count_jobs_for (iterate_create articles runs []) a ≤ 1) := by
  refine ⟨fun jobs limit now a h =>
      create_jobs_preserves_le_one articles hnodup jobs limit now a h,
    fun jobs limit now a h =>
      create_jobs_keeps_existing articles jobs limit now a h, ?_⟩
  have hiter : ∀ runs jobs, (∀ a, count_jobs_for jobs a ≤ 1) →
      ∀ a, count_jobs_for (iterate_create articles runs jobs) a ≤ 1 := by
    intro runs
    induction runs with
    | nil => intro jobs h a; exact h a
    | cons r runs ih =>
      intro jobs h a
      obtain ⟨limit, now⟩ := r
      exact ih _ (fun b =>
        create_jobs_preserves_le_one articles hnodup jobs limit now b (h b)) a
  intro runs a
  exact hiter runs [] (fun b => by simp [count_jobs_for]) a

/-- C9 witness: two articles, three creation runs starting from an empty
job table — article 1 still has at most one job row. -/
theorem create_jobs_never_duplicates_witness :
    List.Nodup [1, 2] ∧
    count_jobs_for (iterate_create [1, 2] [(10, 0), (10, 1), (10, 2)] []) 1 ≤ 1 :=
  ⟨by decide,
   (create_jobs_never_duplicates [1, 2] (by decide)).2.2 [(10, 0), (10, 1), (10, 2)] 1⟩

end Aifeelnews
